import Mathlib

/-!
Verification development for the Sclera-Dashboard repository.

The development shallowly embeds the two source files:

* `static/js/onboarding.js` — the `OnboardingManager` class: a linear
  step-sequencer over a fixed catalog of tutorial steps, driven by DOM
  queries.  DOM state that the manager observes or mutates (overlay and
  callout elements, CSS classes, rendered callout contents, `localStorage`,
  outgoing `fetch` calls, console output) is modelled explicitly as fields
  of `OMState`.  DOM lookups (`document.querySelector`) and other ambient
  inputs are modelled by an environment `Env`.  `setTimeout` continuations
  are composed synchronously: for a method that schedules work, the
  definition suffixed `Sync` denotes the state at the point where the
  synchronous body has finished and the scheduled continuation is still
  pending, and the unsuffixed definition denotes the state after the
  scheduled continuation has also run.

* `functions/index.js` — the `onResultCreated` Firestore trigger, modelled
  as a function from the triggering data to the list of batched summary
  upserts, together with the upsert semantics (`applyUpsert`).
-/

/-- One entry of the step catalog (`getTutorialSteps` array elements):
`target` selector, `title`, `description`, preferred `position` string and
optional `highlight` style, exactly the object fields used in the source. -/
structure TutorialStep where
  target : String
  title : String
  description : String
  position : String
  highlight : Option String
deriving Repr, DecidableEq, Inhabited

/-- The observable contents written into the callout panel by `showStep`:
the step index, the 1-based position text (`.current-step`), the total text
(`.total-steps`), title, description, progress-bar percentage, whether the
Previous button is disabled, and the Next button label. -/
structure RenderEntry where
  stepIndex : Nat
  shownCurrent : Nat
  shownTotal : Nat
  title : String
  description : String
  progress : ℚ
  prevDisabled : Bool
  nextLabel : String
deriving Repr, DecidableEq

/-- An outgoing `fetch` call as issued by `completeTutorial`:
url, HTTP method, and the `completed` flag of the JSON body. -/
structure FetchCall where
  url : String
  method : String
  completedFlag : Bool
deriving Repr, DecidableEq

/-- The three `localStorage` keys the manager reads and writes:
`sclera_visited`, `sclera_tutorial_completed`, `sclera_tutorial_skipped`.
`none` models an absent key (`getItem` returning `null`). -/
structure LocalStore where
  visited : Option String
  tutorialCompleted : Option String
  tutorialSkipped : Option String
deriving Repr, DecidableEq

/-- The mutable state of an `OnboardingManager` instance together with the
DOM/browser state it owns: instance fields (`currentStep`, `isActive`,
`tutorialSteps`), presence/`active`-class state of the overlay, callout and
welcome modal elements, the `onboarding-active` body class, the store, the
log of `fetch` calls, the log of callout renders, whether the completion
banner was shown, and console output. -/
structure OMState where
  currentStep : Nat
  isActive : Bool
  tutorialSteps : List TutorialStep
  overlayPresent : Bool
  overlayActive : Bool
  calloutPresent : Bool
  calloutActive : Bool
  bodyOnboardingActive : Bool
  welcomeModalPresent : Bool
  store : LocalStore
  fetchLog : List FetchCall
  rendered : List RenderEntry
  completionMessageShown : Bool
  consoleLog : List String
deriving Repr, DecidableEq

/-- Ambient inputs of the manager: `found sel` tells whether
`document.querySelector(sel)` finds an element, `fetchOk` whether the
completion POST succeeds, and `accountType` models
`document.body.dataset.accountType` (`none` = attribute absent). -/
structure Env where
  found : String → Bool
  fetchOk : Bool
  accountType : Option String

/-- JavaScript `v || d` for an optional string `v`: the default is taken
when `v` is absent (`undefined`) or the empty string (falsy). -/
def jsOrDefault (v : Option String) (d : String) : String :=
  match v with
  | none => d
  | some s => if s = "" then d else s

/-- The fixed student step catalog from `getTutorialSteps`. -/
def studentTutorialSteps : List TutorialStep :=
  [ { target := ".bento-profile", title := "Your Profile",
      description := "Access your profile settings and personal information. Click here to customize your account.",
      position := "bottom", highlight := none },
    { target := ".bento-streak", title := "Study Streak",
      description := "Track your daily study consistency. Build momentum by studying every day to maintain your streak!",
      position := "bottom", highlight := none },
    { target := ".bento-explore", title := "Career Exploration",
      description := "Discover career paths that match your interests. Explore different fields and plan your future.",
      position := "bottom", highlight := none },
    { target := ".bento-perf", title := "Analytics Dashboard",
      description := "View detailed insights about your study patterns, time spent, and performance trends over time.",
      position := "bottom", highlight := none },
    { target := ".bento-academic", title := "Academic Progress",
      description := "Monitor your overall academic progress across all subjects. See completion rates and chapter statistics.",
      position := "right", highlight := none },
    { target := ".bento-schedule", title := "Calendar",
      description := "Manage your schedule, view upcoming events, and plan your study sessions effectively.",
      position := "left", highlight := none },
    { target := ".bento-tasks", title := "Task Management",
      description := "Create, track, and complete tasks. Stay organized and boost your productivity.",
      position := "top", highlight := none },
    { target := ".bento-subjects", title := "Subject Mastery",
      description := "Track progress in individual subjects. See detailed breakdowns of your mastery in each area.",
      position := "top", highlight := none },
    { target := "a[href*=\"/dashboard\"]", title := "Home",
      description := "Return to this main dashboard view anytime to see your overview.",
      position := "bottom", highlight := some "notch" },
    { target := "a[href*=\"/calendar\"]", title := "Calendar View",
      description := "Access your full calendar with detailed event management and scheduling tools.",
      position := "bottom", highlight := some "notch" },
    { target := "a[href*=\"/academic\"]", title := "Academic Dashboard",
      description := "Deep dive into your academic progress, syllabus, and subject-specific details.",
      position := "bottom", highlight := some "notch" },
    { target := "a[href*=\"/study-mode\"]", title := "Study Mode",
      description := "Enter focused study sessions with timers, break reminders, and distraction-free environment.",
      position := "bottom", highlight := some "notch" },
    { target := "a[href*=\"/interests\"]", title := "Career Center",
      description := "Explore careers, courses, and internships. Plan your professional journey.",
      position := "bottom", highlight := some "notch" },
    { target := "a[href*=\"/community\"]", title := "Community",
      description := "Connect with other learners, share knowledge, and collaborate on projects.",
      position := "bottom", highlight := some "notch" },
    { target := "a[href*=\"/master-library\"]", title := "Library",
      description := "Access your study materials, notes, and resources in one organized place.",
      position := "bottom", highlight := some "notch" },
    { target := "a[href*=\"/ai-assistant\"]", title := "AI Assistant",
      description := "Get instant help with your studies. Ask questions and receive personalized guidance.",
      position := "bottom", highlight := some "notch" },
    { target := "a[href*=\"/docs\"]", title := "Documentation",
      description := "Access help articles, guides, and tutorials to make the most of Sclera.",
      position := "bottom", highlight := some "notch" },
    { target := "a[href*=\"/statistics\"]", title := "Statistics",
      description := "View comprehensive analytics, charts, and insights about your learning journey.",
      position := "bottom", highlight := some "notch" },
    { target := "#themeToggle", title := "Theme Toggle",
      description := "Switch between dark and light modes to match your preference.",
      position := "bottom", highlight := some "action" },
    { target := ".profile-btn", title := "Profile Menu",
      description := "Access settings, logout, and other account options from this menu.",
      position := "bottom", highlight := some "action" } ]

/-- `getTutorialSteps`: the student catalog for account type `student`
(the default when the dataset attribute is absent or empty), otherwise the
empty catalog. -/
def getTutorialSteps (env : Env) : List TutorialStep :=
  if jsOrDefault env.accountType "student" = "student" then studentTutorialSteps
  else []

/-- `endTutorial`: clears `isActive`, removes the body class and the
overlay/callout elements (with their `active` classes).  Store, logs and
`currentStep` are untouched. -/
def endTutorial (s : OMState) : OMState :=
  { s with isActive := false, bodyOnboardingActive := false,
           calloutActive := false, calloutPresent := false,
           overlayActive := false, overlayPresent := false }

/-- The completion POST issued by `completeTutorial`. -/
def completionCall : FetchCall :=
  { url := "/api/tutorial/complete", method := "POST", completedFlag := true }

/-- `completeTutorial`: calls `endTutorial`, persists
`sclera_tutorial_completed = "true"`, issues the completion POST (whose
failure is only logged via the `.catch` handler) and shows the transient
completion banner. -/
def completeTutorial (env : Env) (s : OMState) : OMState :=
  let s1 := endTutorial s
  { s1 with store := { s1.store with tutorialCompleted := some "true" },
            fetchLog := s1.fetchLog ++ [completionCall],
            consoleLog :=
              if env.fetchOk then s1.consoleLog
              else s1.consoleLog ++ ["Could not save tutorial status"],
            completionMessageShown := true }

/-- The callout contents `showStep` writes for a found step `st` at index
`i` of catalog `steps`. -/
def renderEntry (steps : List TutorialStep) (i : Nat) (st : TutorialStep) : RenderEntry :=
  { stepIndex := i, shownCurrent := i + 1, shownTotal := steps.length,
    title := st.title, description := st.description,
    progress := ((i + 1 : ℚ) / (steps.length : ℚ)) * 100,
    prevDisabled := i == 0,
    nextLabel := if i = steps.length - 1 then "Finish" else "Next" }

/-- `showStep(stepIndex)`.  Out-of-range index (the source also checks
`stepIndex < 0`, vacuous here over `Nat` since every call site passes a
non-negative index) ends the tutorial.  Otherwise `currentStep` is set,
the target is looked up, and on success the callout is filled and
activated.  When the target is missing the source calls `this.nextStep()`;
its body is inlined here (on the state with `currentStep = stepIndex`) so
that the recursion is structural in a single function — the lemma
`showStep_missing_eq_nextStep` below recovers the source's call shape. -/
def showStep (env : Env) (s : OMState) (stepIndex : Nat) : OMState :=
  if h : stepIndex < s.tutorialSteps.length then
    if env.found (s.tutorialSteps.get ⟨stepIndex, h⟩).target then
      { s with currentStep := stepIndex,
               calloutActive := true,
               rendered := s.rendered ++
                 [renderEntry s.tutorialSteps stepIndex (s.tutorialSteps.get ⟨stepIndex, h⟩)] }
    else
      if stepIndex < s.tutorialSteps.length - 1 then
        showStep env { s with currentStep := stepIndex, calloutActive := false } (stepIndex + 1)
      else
        completeTutorial env { s with currentStep := stepIndex }
  else
    endTutorial s
termination_by s.tutorialSteps.length - stepIndex
decreasing_by simp; omega

/-- `nextStep`: advance to `showStep(currentStep + 1)` unless already at
the last index, in which case `completeTutorial` is invoked.  (Over `Nat`,
`length - 1` saturates at `0` for the empty catalog, which selects the same
branch as the source's `currentStep < -1` comparison.) -/
def nextStep (env : Env) (s : OMState) : OMState :=
  if s.currentStep < s.tutorialSteps.length - 1 then
    showStep env { s with calloutActive := false } (s.currentStep + 1)
  else
    completeTutorial env s

/-- `previousStep`: move back one step when `currentStep > 0`, otherwise do
nothing. -/
def previousStep (env : Env) (s : OMState) : OMState :=
  if 0 < s.currentStep then
    showStep env { s with calloutActive := false } (s.currentStep - 1)
  else s

/-- `createOverlay`: appends the overlay element and (after a 10ms timer)
gives it the `active` class. -/
def createOverlay (s : OMState) : OMState :=
  { s with overlayPresent := true, overlayActive := true }

/-- `createCallout`: appends the callout element (initially without the
`active` class). -/
def createCallout (s : OMState) : OMState :=
  { s with calloutPresent := true }

/-- The synchronous body of `startTutorial`: removes the welcome modal,
loads the catalog, sets `currentStep = 0` and `isActive = true`, adds the
body class and creates the overlay and callout.  The call `showStep(0)` is
still pending (scheduled with a 500ms timer); this is the state visible
during that delay. -/
def startTutorialSync (env : Env) (s : OMState) : OMState :=
  createCallout (createOverlay
    { s with welcomeModalPresent := false,
             tutorialSteps := getTutorialSteps env,
             currentStep := 0,
             isActive := true,
             bodyOnboardingActive := true })

/-- `startTutorial` including its scheduled `showStep(0)` continuation. -/
def startTutorial (env : Env) (s : OMState) : OMState :=
  showStep env (startTutorialSync env s) 0

/-- `skipTutorial`: dismisses the welcome modal and records
`sclera_tutorial_skipped = "true"`. -/
def skipTutorial (s : OMState) : OMState :=
  { s with welcomeModalPresent := false,
           store := { s.store with tutorialSkipped := some "true" } }

/-- `showWelcomeModal`: appends the welcome modal element. -/
def showWelcomeModal (s : OMState) : OMState :=
  { s with welcomeModalPresent := true }

/-- `restartTutorial`: clears the completed and skipped flags and starts
again. -/
def restartTutorial (env : Env) (s : OMState) : OMState :=
  startTutorial env
    { s with store := { s.store with tutorialCompleted := none, tutorialSkipped := none } }

/-- The field state of a freshly constructed `OnboardingManager` (the
constructor only reads the store, so the store is a parameter). -/
def initialOM (store : LocalStore) : OMState :=
  { currentStep := 0, isActive := false, tutorialSteps := [],
    overlayPresent := false, overlayActive := false,
    calloutPresent := false, calloutActive := false,
    bodyOnboardingActive := false, welcomeModalPresent := false,
    store := store, fetchLog := [], rendered := [],
    completionMessageShown := false, consoleLog := [] }

/-- The manager-external state `init()` touches: the store, whether the
`tutorial` query parameter was stripped from the URL, whether a tutorial
start or the welcome modal was scheduled, and whether the manual
`startTutorial` event listener was registered. -/
structure InitState where
  store : LocalStore
  urlStripped : Bool
  startScheduled : Bool
  welcomeScheduled : Bool
  listenerAdded : Bool
deriving Repr, DecidableEq

/-- Ambient input of `init()`: the value of the `tutorial` URL query
parameter (`none` when absent). -/
structure InitEnv where
  tutorialParam : Option String
deriving Repr, DecidableEq

/-- `checkTutorialStatus`: strict comparison of the stored
`sclera_tutorial_completed` value with the string `true`. -/
def checkTutorialStatus (store : LocalStore) : Bool :=
  if store.tutorialCompleted = some "true" then true else false

/-- JavaScript truthiness of a `localStorage.getItem` result: `null`
(absent) and the empty string are falsy. -/
def jsTruthy (v : Option String) : Bool :=
  match v with
  | none => false
  | some s => if s = "" then false else true

/-- `init()`: with `tutorial=start` in the URL, strip the parameter and
schedule `startTutorial`, returning early (no store write, no listener).
Otherwise set the `sclera_visited` flag and schedule the welcome modal on
a first visit with the tutorial not completed, and register the manual
start listener. -/
def init (env : InitEnv) (s : InitState) : InitState :=
  if env.tutorialParam = some "start" then
    { s with urlStripped := true, startScheduled := true }
  else
    if !jsTruthy s.store.visited && !checkTutorialStatus s.store then
      { s with store := { s.store with visited := some "true" },
               welcomeScheduled := true, listenerAdded := true }
    else
      { s with listenerAdded := true }

/-- A screen rectangle as returned by `getBoundingClientRect`, with
`bottom` and `right` derived from the other fields.  Coordinates are
modelled as rationals. -/
structure Rect where
  top : ℚ
  left : ℚ
  width : ℚ
  height : ℚ
deriving Repr, DecidableEq

/-- `rect.bottom` of `getBoundingClientRect`. -/
def Rect.bottom (r : Rect) : ℚ := r.top + r.height

/-- `rect.right` of `getBoundingClientRect`. -/
def Rect.right (r : Rect) : ℚ := r.left + r.width

/-- The outputs of `positionCallout`: the final `top`/`left` style values
and the recorded `data-position` attribute. -/
structure CalloutPlacement where
  top : ℚ
  left : ℚ
  dataPosition : String
deriving Repr, DecidableEq

/-- `positionCallout`: the `switch` on the preferred side computes the raw
placement and records `data-position`; the subsequent viewport clamping
translates `left` then `top` into the viewport with a 20-unit margin and
does not touch `data-position`. -/
def positionCallout (targetRect calloutRect : Rect) (position : String)
    (viewportWidth viewportHeight : ℚ) : CalloutPlacement :=
  let spacing : ℚ := 20
  let p : CalloutPlacement :=
    if position = "top" then
      { top := targetRect.top - calloutRect.height - spacing,
        left := targetRect.left + targetRect.width / 2 - calloutRect.width / 2,
        dataPosition := "top" }
    else if position = "bottom" then
      { top := targetRect.bottom + spacing,
        left := targetRect.left + targetRect.width / 2 - calloutRect.width / 2,
        dataPosition := "bottom" }
    else if position = "left" then
      { top := targetRect.top + targetRect.height / 2 - calloutRect.height / 2,
        left := targetRect.left - calloutRect.width - spacing,
        dataPosition := "left" }
    else if position = "right" then
      { top := targetRect.top + targetRect.height / 2 - calloutRect.height / 2,
        left := targetRect.right + spacing,
        dataPosition := "right" }
    else
      { top := targetRect.bottom + spacing,
        left := targetRect.left + targetRect.width / 2 - calloutRect.width / 2,
        dataPosition := "bottom" }
  let left1 := if p.left < spacing then spacing else p.left
  let left2 :=
    if left1 + calloutRect.width > viewportWidth - spacing then
      viewportWidth - calloutRect.width - spacing
    else left1
  let top1 := if p.top < spacing then spacing else p.top
  let top2 :=
    if top1 + calloutRect.height > viewportHeight - spacing then
      viewportHeight - calloutRect.height - spacing
    else top1
  { top := top2, left := left2, dataPosition := p.dataPosition }

/-- The `users/{userId}` document as read by `onResultCreated`: only its
`class_ids` field is used (`none` models an absent field). -/
structure UserDoc where
  class_ids : Option (List String)
deriving Repr, DecidableEq

/-- The created `exam_results` document: only `percentage` is used
(`none` models an absent field; `percentage || 0` defaults it to 0). -/
structure ExamResult where
  percentage : Option ℚ
deriving Repr, DecidableEq

/-- The `classes/{classId}/class_summary/latest` document. -/
structure ClassSummary where
  total_assessments : ℚ
  total_score_sum : ℚ
  last_updated : Option Nat
deriving Repr, DecidableEq

/-- One batched `set(..., merge: true)` of `onResultCreated`: the class id
and the two `FieldValue.increment` deltas, plus the server-timestamp
stamp. -/
structure SummaryUpsert where
  classId : String
  assessmentsInc : ℚ
  scoreInc : ℚ
  stampsServerTime : Bool
deriving Repr, DecidableEq

/-- `onResultCreated` as the list of summary upserts it batches: no write
when the user document is missing (`!userSnap.exists`) or the class list
is empty (`!classIds.length`; `class_ids || []` also defaults an absent
field to the empty list), otherwise one upsert per class id incrementing
`total_assessments` by 1 and `total_score_sum` by `percentage || 0` and
stamping `last_updated` with the server time. -/
def onResultCreated (users : String → Option UserDoc) (userId : String)
    (result : ExamResult) : List SummaryUpsert :=
  match users userId with
  | none => []
  | some userData =>
    let classIds := userData.class_ids.getD []
    if classIds.isEmpty then []
    else
      classIds.map fun classId =>
        { classId := classId, assessmentsInc := 1,
          scoreInc := result.percentage.getD 0, stampsServerTime := true }

/-- Firestore semantics of one merge-`set` with `FieldValue.increment` and
`serverTimestamp`: a missing summary document starts from zero counters. -/
def applyUpsert (summaries : String → Option ClassSummary) (serverTime : Nat)
    (w : SummaryUpsert) : String → Option ClassSummary :=
  fun cid =>
    if cid = w.classId then
      let old := (summaries cid).getD
        { total_assessments := 0, total_score_sum := 0, last_updated := none }
      some { total_assessments := old.total_assessments + w.assessmentsInc,
             total_score_sum := old.total_score_sum + w.scoreInc,
             last_updated := if w.stampsServerTime then some serverTime else old.last_updated }
    else summaries cid

/-- The manager states reachable through its public operations, including
the states in which a scheduled continuation is still pending
(`startSync` is the state during the 500ms delay before `showStep(0)`
runs, and `fade` the state during the 300ms callout fade-out before a
scheduled `showStep` runs). -/
inductive Reach : OMState → Prop where
  | init (store : LocalStore) : Reach (initialOM store)
  | welcome {s : OMState} : Reach s → Reach (showWelcomeModal s)
  | startSync {s : OMState} (env : Env) : Reach s → Reach (startTutorialSync env s)
  | start {s : OMState} (env : Env) : Reach s → Reach (startTutorial env s)
  | next {s : OMState} (env : Env) : Reach s → Reach (nextStep env s)
  | prev {s : OMState} (env : Env) : Reach s → Reach (previousStep env s)
  | stop {s : OMState} : Reach s → Reach (endTutorial s)
  | skip {s : OMState} : Reach s → Reach (skipTutorial s)
  | finish {s : OMState} (env : Env) : Reach s → Reach (completeTutorial env s)
  | restart {s : OMState} (env : Env) : Reach s → Reach (restartTutorial env s)
  | fade {s : OMState} : Reach s → Reach { s with calloutActive := false }

@[simp] theorem endTutorial_isActive (s : OMState) : (endTutorial s).isActive = false := rfl

@[simp] theorem endTutorial_currentStep (s : OMState) :
    (endTutorial s).currentStep = s.currentStep := rfl

@[simp] theorem endTutorial_tutorialSteps (s : OMState) :
    (endTutorial s).tutorialSteps = s.tutorialSteps := rfl

@[simp] theorem endTutorial_store (s : OMState) : (endTutorial s).store = s.store := rfl

@[simp] theorem endTutorial_rendered (s : OMState) : (endTutorial s).rendered = s.rendered := rfl

@[simp] theorem completeTutorial_isActive (env : Env) (s : OMState) :
    (completeTutorial env s).isActive = false := rfl

@[simp] theorem completeTutorial_currentStep (env : Env) (s : OMState) :
    (completeTutorial env s).currentStep = s.currentStep := rfl

@[simp] theorem completeTutorial_tutorialSteps (env : Env) (s : OMState) :
    (completeTutorial env s).tutorialSteps = s.tutorialSteps := rfl

@[simp] theorem completeTutorial_tutorialCompleted (env : Env) (s : OMState) :
    (completeTutorial env s).store.tutorialCompleted = some "true" := rfl

@[simp] theorem completeTutorial_fetchLog (env : Env) (s : OMState) :
    (completeTutorial env s).fetchLog = s.fetchLog ++ [completionCall] := rfl

/-- `showStep` on an in-range index whose target is found: the callout is
filled and activated and `currentStep` becomes the index. -/
theorem showStep_found_eq (env : Env) (s : OMState) (i : Nat)
    (h : i < s.tutorialSteps.length)
    (hf : env.found (s.tutorialSteps.get ⟨i, h⟩).target = true) :
    showStep env s i =
      { s with currentStep := i, calloutActive := true,
               rendered := s.rendered ++
                 [renderEntry s.tutorialSteps i (s.tutorialSteps.get ⟨i, h⟩)] } := by
  simp only [List.get_eq_getElem] at hf
  rw [showStep]
  simp [h, hf]

/-- `showStep` on an out-of-range index ends the tutorial. -/
theorem showStep_oob (env : Env) (s : OMState) (i : Nat)
    (h : s.tutorialSteps.length ≤ i) :
    showStep env s i = endTutorial s := by
  rw [showStep]
  simp [Nat.not_lt.mpr h]

/-- Faithfulness of the inlining in `showStep`: on an in-range index whose
target is missing, `showStep env s i` is exactly the source's
`this.nextStep()` call on the state in which `currentStep` has just been
set to `i`. -/
theorem showStep_missing_eq_nextStep (env : Env) (s : OMState) (i : Nat)
    (h : i < s.tutorialSteps.length)
    (hm : env.found (s.tutorialSteps.get ⟨i, h⟩).target = false) :
    showStep env s i = nextStep env { s with currentStep := i } := by
  simp only [List.get_eq_getElem] at hm
  rw [showStep, nextStep]
  simp [h, hm]

/-- The sequencer position invariant restricted to nonempty catalogs:
whenever the tutorial is active and the catalog is nonempty, the current
index is in range. -/
def SeqInv (s : OMState) : Prop :=
  s.isActive = true → s.tutorialSteps ≠ [] → s.currentStep < s.tutorialSteps.length

theorem seqInv_showStep_fuel (fuel : Nat) :
    ∀ (env : Env) (s : OMState) (i : Nat),
      s.tutorialSteps.length - i ≤ fuel → SeqInv (showStep env s i) := by
  induction fuel with
  | zero =>
    intro env s i hle
    rw [showStep_oob env s i (by omega)]
    intro ha
    simp at ha
  | succ n ih =>
    intro env s i hle
    rw [showStep]
    split
    case isTrue h =>
      split
      case isTrue hf =>
        intro _ _
        simpa using h
      case isFalse hf =>
        split
        case isTrue h2 =>
          refine ih env _ (i + 1) ?_
          show s.tutorialSteps.length - (i + 1) ≤ n
          omega
        case isFalse h2 =>
          intro ha
          simp at ha
    case isFalse h =>
      intro ha
      simp at ha

/-- `showStep` always re-establishes the position invariant. -/
theorem seqInv_showStep (env : Env) (s : OMState) (i : Nat) :
    SeqInv (showStep env s i) :=
  seqInv_showStep_fuel (s.tutorialSteps.length - i) env s i le_rfl

/-- `nextStep` always re-establishes the position invariant. -/
theorem seqInv_nextStep (env : Env) (s : OMState) : SeqInv (nextStep env s) := by
  rw [nextStep]
  by_cases h : s.currentStep < s.tutorialSteps.length - 1
  · simp only [h, if_true]
    exact seqInv_showStep env _ _
  · simp only [h, if_false]
    intro ha
    simp at ha

/-- `nextStep` below the last index, with the next target found: the
sequencer moves to the next index and renders it. -/
theorem nextStep_found_eq (env : Env) (s : OMState)
    (h : s.currentStep + 1 < s.tutorialSteps.length)
    (hf : env.found ((s.tutorialSteps.get ⟨s.currentStep + 1, h⟩).target) = true) :
    nextStep env s =
      { s with currentStep := s.currentStep + 1, calloutActive := true,
               rendered := s.rendered ++
                 [renderEntry s.tutorialSteps (s.currentStep + 1)
                   (s.tutorialSteps.get ⟨s.currentStep + 1, h⟩)] } := by
  rw [nextStep, if_pos (by omega)]
  rw [showStep_found_eq env { s with calloutActive := false } (s.currentStep + 1) h hf]

/-- Iterating `nextStep` over a catalog whose targets are all found walks
the index forward one step per call, leaving the catalog unchanged. -/
theorem iterate_nextStep_found (env : Env) (s : OMState)
    (hAll : ∀ st ∈ s.tutorialSteps, env.found st.target = true) :
    ∀ k : Nat, s.currentStep + k < s.tutorialSteps.length →
      ((nextStep env)^[k] s).currentStep = s.currentStep + k ∧
      ((nextStep env)^[k] s).tutorialSteps = s.tutorialSteps := by
  intro k
  induction k with
  | zero => simp
  | succ m ih =>
    intro hk
    have hm := ih (by omega)
    rw [Function.iterate_succ_apply']
    have hcur : ((nextStep env)^[m] s).currentStep = s.currentStep + m := hm.1
    have hsteps : ((nextStep env)^[m] s).tutorialSteps = s.tutorialSteps := hm.2
    have hb : ((nextStep env)^[m] s).currentStep + 1 <
        ((nextStep env)^[m] s).tutorialSteps.length := by
      rw [hcur, hsteps]; omega
    have hf : env.found ((((nextStep env)^[m] s).tutorialSteps.get
        ⟨((nextStep env)^[m] s).currentStep + 1, hb⟩).target) = true := by
      rw [← hsteps] at hAll
      exact hAll _ (List.get_mem _ _ hb)
    rw [nextStep_found_eq env _ hb hf]
    refine ⟨?_, ?_⟩
    · simp only []
      rw [hcur]
      omega
    · simpa using hsteps

/-- Claim C1: for every catalog of length N ≥ 1, starting at index 0 and
calling `nextStep` (advance) exactly N-1 times with every step's target
found lands the sequencer on index N-1; one further `nextStep` call
invokes `completeTutorial` (leaving the index at N-1 and the completed
flag persisted) rather than moving to an out-of-range index. -/
theorem nextStep_walks_catalog_then_completes (env : Env) (s : OMState) (N : Nat)
    (hlen : s.tutorialSteps.length = N) (hN : 1 ≤ N) (h0 : s.currentStep = 0)
    (hAll : ∀ st ∈ s.tutorialSteps, env.found st.target = true) :
    ((nextStep env)^[N - 1] s).currentStep = N - 1 ∧
    nextStep env ((nextStep env)^[N - 1] s) =
      completeTutorial env ((nextStep env)^[N - 1] s) ∧
    ((nextStep env)^[N] s).currentStep = N - 1 ∧
    ((nextStep env)^[N] s).isActive = false ∧
    ((nextStep env)^[N] s).store.tutorialCompleted = some "true" := by
  have hiter := iterate_nextStep_found env s hAll (N - 1) (by rw [h0, hlen]; omega)
  have hcur : ((nextStep env)^[N - 1] s).currentStep = N - 1 := by
    rw [hiter.1, h0]
    omega
  have hsteps : ((nextStep env)^[N - 1] s).tutorialSteps = s.tutorialSteps := hiter.2
  have hlast : nextStep env ((nextStep env)^[N - 1] s) =
      completeTutorial env ((nextStep env)^[N - 1] s) := by
    rw [nextStep, if_neg (by rw [hcur, hsteps, hlen]; omega)]
  have hNsplit : (nextStep env)^[N] s = nextStep env ((nextStep env)^[N - 1] s) := by
    have hN1 : N = (N - 1) + 1 := by omega
    conv_lhs => rw [hN1]
    rw [Function.iterate_succ_apply']
  refine ⟨hcur, hlast, ?_, ?_, ?_⟩ <;> rw [hNsplit, hlast] <;> simp [hcur]

def emptyStore : LocalStore := ⟨none, none, none⟩

def envAllFound : Env := ⟨fun _ => true, true, some "student"⟩

def stepA : TutorialStep := ⟨"#a", "A", "first step", "bottom", none⟩

def stepB : TutorialStep := ⟨"#b", "B", "second step", "bottom", none⟩

def stepC : TutorialStep := ⟨"#c", "C", "third step", "bottom", none⟩

def omTwoSteps : OMState :=
  { initialOM emptyStore with isActive := true, tutorialSteps := [stepA, stepB] }

/-- Witness for C1 on a concrete two-step catalog with every target found. -/
theorem nextStep_walks_catalog_then_completes_witness :
    omTwoSteps.tutorialSteps.length = 2 ∧ 1 ≤ 2 ∧ omTwoSteps.currentStep = 0 ∧
    (∀ st ∈ omTwoSteps.tutorialSteps, envAllFound.found st.target = true) ∧
    ((nextStep envAllFound)^[1] omTwoSteps).currentStep = 1 ∧
    nextStep envAllFound ((nextStep envAllFound)^[1] omTwoSteps) =
      completeTutorial envAllFound ((nextStep envAllFound)^[1] omTwoSteps) ∧
    ((nextStep envAllFound)^[2] omTwoSteps).currentStep = 1 ∧
    ((nextStep envAllFound)^[2] omTwoSteps).isActive = false ∧
    ((nextStep envAllFound)^[2] omTwoSteps).store.tutorialCompleted = some "true" := by
  have h := nextStep_walks_catalog_then_completes envAllFound omTwoSteps 2
    rfl (by decide) rfl (by intro st _; rfl)
  exact ⟨rfl, by decide, rfl, by intro st _; rfl, h.1, h.2.1, h.2.2.1, h.2.2.2.1, h.2.2.2.2⟩

/-- Claim C3: when a step's target is missing, `showStep` silently skips
forward to the next index without rendering anything for the missing
step, and the next found step displays its true 1-based position over the
full catalog length (the displayed total is never decremented by skips). -/
theorem showStep_missing_target_skipped (env : Env) (s : OMState) (i : Nat)
    (h1 : i + 1 < s.tutorialSteps.length)
    (h2 : env.found ((s.tutorialSteps.get ⟨i, Nat.lt_of_succ_lt h1⟩).target) = false)
    (h3 : env.found ((s.tutorialSteps.get ⟨i + 1, h1⟩).target) = true) :
    (showStep env s i).currentStep = i + 1 ∧
    (showStep env s i).rendered = s.rendered ++
      [renderEntry s.tutorialSteps (i + 1) (s.tutorialSteps.get ⟨i + 1, h1⟩)] ∧
    (renderEntry s.tutorialSteps (i + 1) (s.tutorialSteps.get ⟨i + 1, h1⟩)).shownCurrent
      = i + 2 ∧
    (renderEntry s.tutorialSteps (i + 1) (s.tutorialSteps.get ⟨i + 1, h1⟩)).shownTotal
      = s.tutorialSteps.length := by
  have hstep : showStep env s i =
      showStep env { s with currentStep := i, calloutActive := false } (i + 1) := by
    rw [showStep, dif_pos (Nat.lt_of_succ_lt h1),
        if_neg (by simp only [List.get_eq_getElem] at h2; simp [h2]),
        if_pos (by omega)]
  rw [hstep]
  rw [showStep_found_eq env { s with currentStep := i, calloutActive := false }
        (i + 1) h1 h3]
  refine ⟨rfl, rfl, rfl, rfl⟩

def envSkipB : Env := ⟨fun t => if t = "#b" then false else true, true, some "student"⟩

def omThreeSteps : OMState :=
  { initialOM emptyStore with isActive := true, tutorialSteps := [stepA, stepB, stepC] }

/-- Witness for C3: a three-step catalog whose middle target is missing;
the step after the skipped one renders as position 3 of 3. -/
theorem showStep_missing_target_skipped_witness :
    1 + 1 < omThreeSteps.tutorialSteps.length ∧
    (showStep envSkipB omThreeSteps 1).currentStep = 2 ∧
    (showStep envSkipB omThreeSteps 1).rendered =
      [renderEntry omThreeSteps.tutorialSteps 2 stepC] ∧
    (renderEntry omThreeSteps.tutorialSteps 2 stepC).shownCurrent = 3 ∧
    (renderEntry omThreeSteps.tutorialSteps 2 stepC).shownTotal = 3 := by
  have h := showStep_missing_target_skipped envSkipB omThreeSteps 1
    (by decide) (by decide) (by decide)
  exact ⟨by decide, h.1, h.2.1, h.2.2.1, h.2.2.2⟩

/-- Claim C6: `completeTutorial` persists the completed flag, issues the
completion POST exactly once, leaves the tutorial inactive and shows the
completion banner; the outcome of the POST (success or failure) changes
neither the persisted flags nor the inactive state. -/
theorem completeTutorial_persists_and_notifies_once (env : Env) (s : OMState) :
    (completeTutorial env s).store.tutorialCompleted = some "true" ∧
    (completeTutorial env s).fetchLog = s.fetchLog ++ [completionCall] ∧
    completionCall.url = "/api/tutorial/complete" ∧
    completionCall.method = "POST" ∧
    completionCall.completedFlag = true ∧
    (completeTutorial env s).isActive = false ∧
    (completeTutorial env s).completionMessageShown = true ∧
    (∀ envF : Env, (completeTutorial envF s).store = (completeTutorial env s).store ∧
      (completeTutorial envF s).isActive = false) :=
  ⟨rfl, rfl, rfl, rfl, rfl, rfl, rfl, fun _ => ⟨rfl, rfl⟩⟩

/-- Claim C8: `skipTutorial` writes exactly the skipped flag (visited and
completed are unchanged), and `endTutorial` writes no persisted flag at
all. -/
theorem skipTutorial_and_endTutorial_flag_effects (s : OMState) :
    (skipTutorial s).store.tutorialSkipped = some "true" ∧
    (skipTutorial s).store.visited = s.store.visited ∧
    (skipTutorial s).store.tutorialCompleted = s.store.tutorialCompleted ∧
    (endTutorial s).store = s.store :=
  ⟨rfl, rfl, rfl, rfl⟩

/-- Claim C9: `previousStep` at index 0 is a no-op (the state, in
particular the index and activity, is unchanged and nothing is
scheduled); at a positive index it moves to `showStep(currentStep - 1)`
after removing the callout's active class. -/
theorem previousStep_at_zero_noop (env : Env) (s : OMState) :
    (s.currentStep = 0 → previousStep env s = s) ∧
    (0 < s.currentStep →
      previousStep env s =
        showStep env { s with calloutActive := false } (s.currentStep - 1)) := by
  constructor
  · intro h0
    rw [previousStep, if_neg (by omega)]
  · intro hpos
    rw [previousStep, if_pos hpos]

def omAtOne : OMState := { omTwoSteps with currentStep := 1 }

/-- Witness for C9: both branches at concrete states. -/
theorem previousStep_at_zero_noop_witness :
    omTwoSteps.currentStep = 0 ∧
    previousStep envAllFound omTwoSteps = omTwoSteps ∧
    0 < omAtOne.currentStep ∧
    previousStep envAllFound omAtOne =
      showStep envAllFound { omAtOne with calloutActive := false } 0 :=
  ⟨rfl, (previousStep_at_zero_noop envAllFound omTwoSteps).1 rfl, by decide,
   (previousStep_at_zero_noop envAllFound omAtOne).2 (by decide)⟩

def envTeacher : Env := ⟨fun _ => false, true, some "teacher"⟩

/-- Counterexample to claim C2 as stated: starting with an empty catalog
(non-student account type) does create the overlay and does set
`isActive = true` (the state during the 500ms delay before the scheduled
`showStep(0)` runs), and the overlay is then torn down again. -/
theorem startTutorial_empty_catalog_counterexample :
    getTutorialSteps envTeacher = [] ∧
    (startTutorialSync envTeacher (initialOM emptyStore)).overlayPresent = true ∧
    (startTutorialSync envTeacher (initialOM emptyStore)).calloutPresent = true ∧
    (startTutorialSync envTeacher (initialOM emptyStore)).isActive = true ∧
    (startTutorial envTeacher (initialOM emptyStore)).overlayPresent = false := by
  have hend : startTutorial envTeacher (initialOM emptyStore) =
      endTutorial (startTutorialSync envTeacher (initialOM emptyStore)) := by
    rw [startTutorial]
    exact showStep_oob _ _ 0 (by decide)
  exact ⟨by decide, rfl, rfl, rfl, by rw [hend]; rfl⟩

/-- Claim C2 (amended): starting with an empty catalog does transiently
create the overlay and callout and set `isActive = true`, but the
scheduled `showStep(0)` immediately ends the tutorial, so the final state
is ended (inactive, overlay and callout removed), no step was ever
rendered, and no flag was written. -/
theorem startTutorial_empty_catalog (env : Env) (s : OMState)
    (h : getTutorialSteps env = []) :
    (startTutorialSync env s).overlayPresent = true ∧
    (startTutorialSync env s).calloutPresent = true ∧
    (startTutorialSync env s).isActive = true ∧
    (startTutorial env s).isActive = false ∧
    (startTutorial env s).overlayPresent = false ∧
    (startTutorial env s).calloutPresent = false ∧
    (startTutorial env s).rendered = s.rendered ∧
    (startTutorial env s).store = s.store := by
  have hend : startTutorial env s = endTutorial (startTutorialSync env s) := by
    rw [startTutorial]
    apply showStep_oob
    show (getTutorialSteps env).length ≤ 0
    rw [h]
    simp
  refine ⟨rfl, rfl, rfl, ?_, ?_, ?_, ?_, ?_⟩ <;> rw [hend] <;> rfl

/-- Witness for the amended C2 at a concrete non-student environment. -/
theorem startTutorial_empty_catalog_witness :
    getTutorialSteps envTeacher = [] ∧
    (startTutorialSync envTeacher (initialOM emptyStore)).isActive = true ∧
    (startTutorial envTeacher (initialOM emptyStore)).isActive = false ∧
    (startTutorial envTeacher (initialOM emptyStore)).rendered = [] := by
  have h := startTutorial_empty_catalog envTeacher (initialOM emptyStore) (by decide)
  exact ⟨by decide, h.2.2.1, h.2.2.2.1, h.2.2.2.2.2.2.1⟩

/-- Counterexample to claim C4 as stated: the reachable state during
start of an empty-catalog tutorial has `isActive = true` while
`currentIndex = 0` is not below the catalog length 0. -/
theorem active_index_invariant_counterexample :
    Reach (startTutorialSync envTeacher (initialOM emptyStore)) ∧
    (startTutorialSync envTeacher (initialOM emptyStore)).isActive = true ∧
    ¬((startTutorialSync envTeacher (initialOM emptyStore)).currentStep <
      (startTutorialSync envTeacher (initialOM emptyStore)).tutorialSteps.length) :=
  ⟨Reach.startSync envTeacher (Reach.init emptyStore), rfl, by decide⟩

/-- Claim C4 (amended): in every reachable state whose catalog is
nonempty, `isActive = true` implies `currentStep < catalog.length`; the
invariant as originally stated fails only transiently during start with
an empty catalog (see the counterexample). -/
theorem reachable_active_index_in_range (s : OMState) (hr : Reach s) :
    s.isActive = true → s.tutorialSteps ≠ [] →
      s.currentStep < s.tutorialSteps.length := by
  induction hr with
  | init store =>
    intro ha _
    simp [initialOM] at ha
  | welcome h ih => exact ih
  | startSync env h ih =>
    intro _ hne
    exact List.length_pos.mpr hne
  | start env h ih => exact seqInv_showStep env _ 0
  | next env h ih => exact seqInv_nextStep env _
  | prev env h ih =>
    rename_i t
    by_cases hc : 0 < t.currentStep
    · have he : previousStep env t =
          showStep env { t with calloutActive := false } (t.currentStep - 1) := by
        rw [previousStep, if_pos hc]
      rw [he]
      exact seqInv_showStep env _ _
    · have he : previousStep env t = t := by
        rw [previousStep, if_neg hc]
      rw [he]
      exact ih
  | stop h ih =>
    intro ha
    simp at ha
  | skip h ih => exact ih
  | finish env h ih =>
    intro ha
    simp at ha
  | restart env h ih => exact seqInv_showStep env _ 0
  | fade h ih => exact ih

/-- Witness for the amended C4 at a concrete reachable active state with
the nonempty student catalog. -/
theorem reachable_active_index_in_range_witness :
    Reach (startTutorialSync envAllFound (initialOM emptyStore)) ∧
    (startTutorialSync envAllFound (initialOM emptyStore)).isActive = true ∧
    (startTutorialSync envAllFound (initialOM emptyStore)).tutorialSteps ≠ [] ∧
    (startTutorialSync envAllFound (initialOM emptyStore)).currentStep <
      (startTutorialSync envAllFound (initialOM emptyStore)).tutorialSteps.length := by
  have hr : Reach (startTutorialSync envAllFound (initialOM emptyStore)) :=
    Reach.startSync envAllFound (Reach.init emptyStore)
  have hne : (startTutorialSync envAllFound (initialOM emptyStore)).tutorialSteps ≠ [] := by
    decide
  exact ⟨hr, rfl, hne, reachable_active_index_in_range _ hr rfl hne⟩

/-- Claim C10: `init` with `tutorial=start` strips the parameter and
schedules the start without writing the visited flag (and without
scheduling the welcome prompt); consequently a later `init` without the
parameter, with the tutorial still not completed, still schedules the
welcome prompt. -/
theorem init_url_start_bypasses_visited (s : InitState)
    (h1 : s.store.visited = none) (h2 : s.store.tutorialCompleted ≠ some "true") :
    (init ⟨some "start"⟩ s).store = s.store ∧
    (init ⟨some "start"⟩ s).urlStripped = true ∧
    (init ⟨some "start"⟩ s).startScheduled = true ∧
    (init ⟨some "start"⟩ s).welcomeScheduled = s.welcomeScheduled ∧
    (init ⟨none⟩ (init ⟨some "start"⟩ s)).welcomeScheduled = true ∧
    (init ⟨none⟩ (init ⟨some "start"⟩ s)).store.visited = some "true" := by
  refine ⟨?_, ?_, ?_, ?_, ?_, ?_⟩ <;>
    simp [init, jsTruthy, checkTutorialStatus, h1, h2]

def initStateFresh : InitState := ⟨emptyStore, false, false, false, false⟩

/-- Witness for C10 at a fresh startup state. -/
theorem init_url_start_bypasses_visited_witness :
    initStateFresh.store.visited = none ∧
    initStateFresh.store.tutorialCompleted ≠ some "true" ∧
    (init ⟨some "start"⟩ initStateFresh).store = initStateFresh.store ∧
    (init ⟨none⟩ (init ⟨some "start"⟩ initStateFresh)).welcomeScheduled = true := by
  have h := init_url_start_bypasses_visited initStateFresh rfl (by decide)
  exact ⟨rfl, by decide, h.1, h.2.2.2.2.1⟩

/-- Claim C7: `onResultCreated` performs no write when the user document
is missing or its class list is empty; otherwise it batches, for each
class id, one upsert of `classes/{classId}/class_summary/latest`
incrementing `total_assessments` by 1 and `total_score_sum` by the
result's percentage (defaulting to 0 when absent) and stamping
`last_updated` with the server time. -/
theorem onResultCreated_spec (users : String → Option UserDoc) (userId : String)
    (result : ExamResult) :
    (users userId = none → onResultCreated users userId result = []) ∧
    (∀ u : UserDoc, users userId = some u → u.class_ids.getD [] = [] →
      onResultCreated users userId result = []) ∧
    (∀ u : UserDoc, users userId = some u → u.class_ids.getD [] ≠ [] →
      onResultCreated users userId result =
        (u.class_ids.getD []).map fun classId =>
          ⟨classId, 1, result.percentage.getD 0, true⟩) ∧
    (∀ (summaries : String → Option ClassSummary) (serverTime : Nat)
      (w : SummaryUpsert), w ∈ onResultCreated users userId result →
      applyUpsert summaries serverTime w w.classId =
        some { total_assessments :=
                 ((summaries w.classId).getD ⟨0, 0, none⟩).total_assessments + 1,
               total_score_sum :=
                 ((summaries w.classId).getD ⟨0, 0, none⟩).total_score_sum +
                   result.percentage.getD 0,
               last_updated := some serverTime }) := by
  refine ⟨?_, ?_, ?_, ?_⟩
  · intro h
    simp [onResultCreated, h]
  · intro u hu he
    simp [onResultCreated, hu, he]
  · intro u hu hne
    simp [onResultCreated, hu, List.isEmpty_iff, hne]
  · intro summaries serverTime w hw
    unfold onResultCreated at hw
    cases hu : users userId with
    | none =>
      rw [hu] at hw
      simp at hw
    | some u =>
      rw [hu] at hw
      simp only at hw
      split at hw
      · simp at hw
      · obtain ⟨cid, _, rfl⟩ := List.mem_map.mp hw
        simp [applyUpsert]

def usersW : String → Option UserDoc := fun uid =>
  if uid = "u1" then some ⟨some ["c1", "c2"]⟩ else none

def resultW : ExamResult := ⟨some 85⟩

def summariesW : String → Option ClassSummary := fun _ => none

def upsertW : SummaryUpsert := ⟨"c1", 1, 85, true⟩

/-- Witness for C7: a missing user yields no write; a user in two classes
yields exactly the two increments; applying the first upsert to an absent
summary yields counters 1 and 85 with the stamped time. -/
theorem onResultCreated_spec_witness :
    usersW "u2" = none ∧
    onResultCreated usersW "u2" resultW = [] ∧
    usersW "u1" = some ⟨some ["c1", "c2"]⟩ ∧
    ((⟨some ["c1", "c2"]⟩ : UserDoc).class_ids.getD []) ≠ [] ∧
    onResultCreated usersW "u1" resultW =
      [⟨"c1", 1, 85, true⟩, ⟨"c2", 1, 85, true⟩] ∧
    upsertW ∈ onResultCreated usersW "u1" resultW ∧
    applyUpsert summariesW 1000 upsertW upsertW.classId = some ⟨1, 85, some 1000⟩ := by
  have h1 := onResultCreated_spec usersW "u1" resultW
  have h2 := onResultCreated_spec usersW "u2" resultW
  refine ⟨by decide, h2.1 (by decide), by decide, by decide, ?_, by decide, ?_⟩
  · have h := h1.2.2.1 ⟨some ["c1", "c2"]⟩ (by decide) (by decide)
    simpa [resultW] using h
  · have h := h1.2.2.2 summariesW 1000 upsertW (by decide)
    simpa [summariesW, upsertW] using h

/-- Claim C5: for preferred side `bottom` and a target fully inside the
viewport (with a callout that fits in the viewport with its 20-unit
margins), the computed top is `targetBottom + 20` and the callout is
horizontally centered on the target unless that placement would overflow,
in which case the position is clamped into
`[20, viewportWidth - calloutWidth - 20]` horizontally and
`[20, viewportHeight - calloutHeight - 20]` vertically; clamping never
changes the recorded side. -/
theorem positionCallout_bottom_spec (targetRect calloutRect : Rect)
    (viewportWidth viewportHeight : ℚ)
    (ht1 : 0 ≤ targetRect.top) (ht2 : 0 ≤ targetRect.left)
    (ht3 : Rect.bottom targetRect ≤ viewportHeight)
    (ht4 : Rect.right targetRect ≤ viewportWidth)
    (hw : 0 ≤ targetRect.width) (hh : 0 ≤ targetRect.height)
    (hcw : calloutRect.width + 40 ≤ viewportWidth)
    (hch : calloutRect.height + 40 ≤ viewportHeight) :
    (positionCallout targetRect calloutRect "bottom" viewportWidth
      viewportHeight).dataPosition = "bottom" ∧
    20 ≤ (positionCallout targetRect calloutRect "bottom" viewportWidth
      viewportHeight).left ∧
    (positionCallout targetRect calloutRect "bottom" viewportWidth
      viewportHeight).left ≤ viewportWidth - calloutRect.width - 20 ∧
    20 ≤ (positionCallout targetRect calloutRect "bottom" viewportWidth
      viewportHeight).top ∧
    (positionCallout targetRect calloutRect "bottom" viewportWidth
      viewportHeight).top ≤ viewportHeight - calloutRect.height - 20 ∧
    (20 ≤ targetRect.left + targetRect.width / 2 - calloutRect.width / 2 →
      targetRect.left + targetRect.width / 2 - calloutRect.width / 2 +
        calloutRect.width ≤ viewportWidth - 20 →
      (positionCallout targetRect calloutRect "bottom" viewportWidth
        viewportHeight).left =
        targetRect.left + targetRect.width / 2 - calloutRect.width / 2) ∧
    (Rect.bottom targetRect + 20 + calloutRect.height ≤ viewportHeight - 20 →
      (positionCallout targetRect calloutRect "bottom" viewportWidth
        viewportHeight).top = Rect.bottom targetRect + 20) := by
  have hb : Rect.bottom targetRect = targetRect.top + targetRect.height := rfl
  have hr : Rect.right targetRect = targetRect.left + targetRect.width := rfl
  rw [hb] at ht3
  rw [hr] at ht4
  refine ⟨?_, ?_, ?_, ?_, ?_, ?_, ?_⟩
  · simp only [positionCallout]
    split_ifs <;> simp_all
  · simp only [positionCallout]
    split_ifs <;> simp_all <;> linarith
  · simp only [positionCallout]
    split_ifs <;> simp_all <;> linarith
  · simp only [positionCallout]
    split_ifs <;> simp_all [Rect.bottom] <;> linarith
  · simp only [positionCallout]
    split_ifs <;> simp_all [Rect.bottom] <;> linarith
  · intro hA hB
    simp only [positionCallout]
    split_ifs <;> simp_all <;> linarith
  · intro hB
    rw [hb] at hB
    simp only [positionCallout]
    split_ifs <;> simp_all [Rect.bottom] <;> linarith

def targetW : Rect := ⟨100, 300, 50, 30⟩

def calloutW : Rect := ⟨0, 0, 200, 100⟩

/-- Witness for C5: a concrete target well inside a 1000x800 viewport;
the unclamped bottom placement applies. -/
theorem positionCallout_bottom_spec_witness :
    (0 ≤ targetW.top ∧ 0 ≤ targetW.left ∧ Rect.bottom targetW ≤ 800 ∧
      Rect.right targetW ≤ 1000 ∧ calloutW.width + 40 ≤ 1000 ∧
      calloutW.height + 40 ≤ 800) ∧
    (positionCallout targetW calloutW "bottom" 1000 800).dataPosition = "bottom" ∧
    20 ≤ (positionCallout targetW calloutW "bottom" 1000 800).left ∧
    (positionCallout targetW calloutW "bottom" 1000 800).left =
      targetW.left + targetW.width / 2 - calloutW.width / 2 ∧
    (positionCallout targetW calloutW "bottom" 1000 800).top =
      Rect.bottom targetW + 20 := by
  have h := positionCallout_bottom_spec targetW calloutW 1000 800
    (by norm_num [targetW]) (by norm_num [targetW])
    (by norm_num [targetW, Rect.bottom]) (by norm_num [targetW, Rect.right])
    (by norm_num [targetW]) (by norm_num [targetW])
    (by norm_num [calloutW]) (by norm_num [calloutW])
  refine ⟨⟨by norm_num [targetW], by norm_num [targetW],
      by norm_num [targetW, Rect.bottom], by norm_num [targetW, Rect.right],
      by norm_num [calloutW], by norm_num [calloutW]⟩,
    h.1, h.2.1, h.2.2.2.2.2.1 ?_ ?_, h.2.2.2.2.2.2 ?_⟩
  · norm_num [targetW, calloutW]
  · norm_num [targetW, calloutW]
  · norm_num [targetW, calloutW, Rect.bottom]
